import Mathlib

/-!
# Verification of the Bedtime Story Generator (src/main.py)

A shallow embedding of the Streamlit application in `src/main.py`.

The application is single-threaded and event-driven.  We model:

* `SessionState`  — the three `st.session_state` fields initialised by
  `init_session_state` (`api_key_submitted`, `client`, `current_story`).
  The OpenAI client handle is represented by the API key it was built from,
  so `client : Option String`.
* `World`         — the outcomes of the external services, as oracles:
  `chatCompletion key prompt` is the result of
  `client.chat.completions.create` (the text returned, or the exception
  message), `ttsCreate key text` is the result of
  `client.audio.speech.create`/`stream_to_file`, and `tmpName` is the path
  chosen by `tempfile.NamedTemporaryFile(delete=False, suffix='.mp3')`.
* the filesystem  — as the list of existing temp-file paths.
* `Event`         — the observable UI/side effects in program order:
  external calls, messages, rendering of text, audio player, the two
  download buttons, and `os.unlink`.

Python truthiness of strings/lists (`if api_key:`, `if generated_content:`,
`all([...])`) is modelled explicitly by emptiness checks.
-/

namespace BedtimeStory

/-- The three `st.session_state` fields (src/main.py, `init_session_state`,
lines 46-53). -/
structure SessionState where
  api_key_submitted : Bool
  client : Option String
  current_story : Option String
deriving DecidableEq

/-- `init_session_state` (lines 46-53): every field starts unset. -/
def init_session_state : SessionState :=
  { api_key_submitted := false, client := none, current_story := none }

/-- Oracle for the external services and the temp-file name. -/
structure World where
  chatCompletion : String → String → Except String String
  ttsCreate : String → String → Except String Unit
  tmpName : String

/-- Observable effects, in program order. -/
inductive Event where
  | textCall (prompt : String)
  | audioCall (text : String)
  | warnMsg (msg : String)
  | errorMsg (msg : String)
  | successMsg (msg : String)
  | displayText (text : String)
  | audioPlayer (path : String)
  | downloadAudio (path : String)
  | downloadText (text : String)
  | unlink (path : String)
deriving DecidableEq

/-- Python truthiness of an optional string: `None` and `""` are falsy. -/
def pyTruthy : Option String → Bool
  | none => false
  | some s => s != ""

/-- `validate_api_key` (lines 55-66): one chat-completion request with the
prompt `"test"`; `true` iff it completes without raising. -/
def validate_api_key (w : World) (api_key : String) : Bool :=
  match w.chatCompletion api_key "test" with
  | .ok _ => true
  | .error _ => false

/-- The submit handler of `api_key_form` (lines 76-89): on a non-empty key
that validates, store the client and set the flag; otherwise leave the
state unchanged and show an error. -/
def api_key_form (w : World) (s : SessionState) (api_key : String) :
    SessionState × List Event :=
  if api_key ≠ "" then
    if validate_api_key w api_key then
      ({ s with client := some api_key, api_key_submitted := true }, [])
    else
      (s, [Event.errorMsg "Invalid API key. Please check and try again."])
  else
    (s, [Event.errorMsg "Please enter an API key."])

/-- The raw widget values on the generator screen (lines 151-178). -/
structure FormInputs where
  genre : String
  tone : String
  setting : String
  character_name : String
  character_type : String
  character_traits : List String
  themes : List String
  length : String
  additional_details : String
deriving DecidableEq

/-- The `story_params` dict (lines 185-195). -/
structure StoryParams where
  genre : String
  tone : String
  setting : String
  character_name : String
  character_type : String
  character_traits : List String
  themes : List String
  length : String
  additional_details : String
deriving DecidableEq

/-- Assembly of `story_params` (lines 185-195): the character name falls
back to `'the protagonist'` exactly when the field is blank. -/
def build_story_params (f : FormInputs) : StoryParams :=
  { genre := f.genre
    tone := f.tone
    setting := f.setting
    character_name :=
      if f.character_name = "" then "the protagonist" else f.character_name
    character_type := f.character_type
    character_traits := f.character_traits
    themes := f.themes
    length := f.length
    additional_details := f.additional_details }

/-- The completeness check
`all([genre, tone, setting, character_type, character_traits, themes])`
(line 181), with Python truthiness made explicit. -/
def formComplete (f : FormInputs) : Bool :=
  f.genre != "" && f.tone != "" && f.setting != "" && f.character_type != ""
    && !f.character_traits.isEmpty && !f.themes.isEmpty

/-- The f-string prompt of `generate_content` (lines 93-107), transcribed
byte-for-byte: every line after the first carries the 4-space indentation
of the Python source, multi-valued fields are joined with `", "`, and an
empty `additional_details` is rendered as `None`. -/
def mkPrompt (p : StoryParams) : String :=
  "Write a bedtime story with the following specifications:\n    Genre: "
  ++ p.genre
  ++ "\n    Tone: " ++ p.tone
  ++ "\n    Setting: " ++ p.setting
  ++ "\n    Main Character: A " ++ p.character_type ++ " who is "
  ++ String.intercalate ", " p.character_traits
  ++ "\n    Character Name: " ++ p.character_name
  ++ "\n    Themes to include: " ++ String.intercalate ", " p.themes
  ++ "\n    Story Length: " ++ p.length
  ++ "\n    \n    Additional details to incorporate: "
  ++ (if p.additional_details = "" then "None" else p.additional_details)
  ++ "\n    \n    The story should be engaging and appropriate for children at bedtime.\n    Make sure to incorporate the selected themes naturally into the story.\n    If specific character names are provided, use them appropriately in the story.\n    "

/-- `generate_content` (lines 91-117): build the prompt, issue one
chat-completion call; on success return the text, on any exception show a
generic error and return `None`. -/
def generate_content (w : World) (client : String) (story_params : StoryParams) :
    Option String × List Event :=
  let prompt := mkPrompt story_params
  match w.chatCompletion client prompt with
  | .ok content => (some content, [Event.textCall prompt])
  | .error err =>
      (none, [Event.textCall prompt,
              Event.errorMsg ("Error generating story: " ++ err)])

/-- `generate_audio` (lines 119-132): `NamedTemporaryFile(delete=False)`
creates the file first, then the speech call streams into it.  On failure
the function returns `None`; the file it created stays in the filesystem,
because `delete=False` and no handler removes it.  Returns
(result, filesystem after the call, events). -/
def generate_audio (w : World) (fs : List String) (client : String)
    (text : String) : Option String × List String × List Event :=
  let fs' := w.tmpName :: fs
  match w.ttsCreate client text with
  | .ok _ => (some w.tmpName, fs', [Event.audioCall text])
  | .error err =>
      (none, fs', [Event.audioCall text,
                   Event.errorMsg ("Error generating audio: " ++ err)])

/-- Outcome of one user action: new session state, filesystem, effects. -/
structure RunResult where
  state : SessionState
  fs : List String
  events : List Event
deriving DecidableEq

/-- The `Generate Story` click handler (lines 180-235): completeness check,
parameter assembly, text generation, and — only when the text is truthy —
display, audio generation, and — only when the audio path is truthy —
player, the two download buttons, and the `os.unlink` of the temp file. -/
def generate_story_click (w : World) (s : SessionState) (fs : List String)
    (f : FormInputs) : RunResult :=
  if formComplete f = false then
    ⟨s, fs, [Event.warnMsg "Please fill in all required fields"]⟩
  else
    let story_params := build_story_params f
    match generate_content w (s.client.getD "") story_params with
    | (generated_content, ev1) =>
      if pyTruthy generated_content then
        let text := generated_content.getD ""
        let ev2 := ev1 ++ [Event.successMsg "Story generated successfully!",
                           Event.displayText text]
        match generate_audio w fs (s.client.getD "") text with
        | (audio_file, fs', ev3) =>
          if pyTruthy audio_file then
            let path := audio_file.getD ""
            ⟨{ s with current_story := some text }, fs'.erase path,
             ev2 ++ ev3 ++
               [Event.successMsg "Audio generated successfully!",
                Event.audioPlayer path, Event.downloadAudio path,
                Event.downloadText text, Event.unlink path]⟩
          else
            ⟨{ s with current_story := some text }, fs', ev2 ++ ev3⟩
      else ⟨s, fs, ev1⟩

/-- The user actions available in the interface. -/
inductive Action where
  | submit_key (api_key : String)
  | change_key
  | generate_story (f : FormInputs)

/-- `story_generator_interface` (lines 134-235) as an action handler: the
sidebar `Change API Key` button (lines 139-142) clears the flag and the
client — and nothing else — and the generate button runs the pipeline.
The gate form does not exist on this screen. -/
def story_generator_interface (w : World) (s : SessionState) (fs : List String) :
    Action → RunResult
  | .change_key => ⟨{ s with api_key_submitted := false, client := none }, fs, []⟩
  | .generate_story f => generate_story_click w s fs f
  | .submit_key _ => ⟨s, fs, []⟩

/-- The two screens. -/
inductive Screen where
  | gate
  | generator
deriving DecidableEq

/-- The dispatch in `main` (lines 247-250): the gate is rendered exactly
when `api_key_submitted` is false. -/
def render (s : SessionState) : Screen :=
  if s.api_key_submitted then Screen.generator else Screen.gate

/-- `main` (lines 237-250) applied to one user action: when the flag is
unset only the gate form is live, otherwise only the generator screen. -/
def main (w : World) (s : SessionState) (fs : List String) (a : Action) :
    RunResult :=
  if s.api_key_submitted then
    story_generator_interface w s fs a
  else
    match a with
    | .submit_key k =>
        let r := api_key_form w s k
        ⟨r.1, fs, r.2⟩
    | _ => ⟨s, fs, []⟩

/-- A whole session: `init_session_state`, then one `main` dispatch per
user action. -/
def runApp (w : World) (acts : List Action) : SessionState :=
  acts.foldl (fun s a => (main w s [] a).state) init_session_state

/-! ### Event classifiers and substring search -/

def isTextCallEv : Event → Bool
  | .textCall _ => true
  | _ => false

def isAudioCallEv : Event → Bool
  | .audioCall _ => true
  | _ => false

def isDownloadTextEv : Event → Bool
  | .downloadText _ => true
  | _ => false

def isDownloadAudioEv : Event → Bool
  | .downloadAudio _ => true
  | _ => false

def isAudioPlayerEv : Event → Bool
  | .audioPlayer _ => true
  | _ => false

/-- Is the first character list a leading segment of the second? -/
def charsStartWith : List Char → List Char → Bool
  | [], _ => true
  | _ :: _, [] => false
  | a :: as, b :: bs => a == b && charsStartWith as bs

def charsHaveSub (needle : List Char) : List Char → Bool
  | [] => charsStartWith needle []
  | b :: bs => charsStartWith needle (b :: bs) || charsHaveSub needle bs

/-- `sub` occurs contiguously inside `s`. -/
def strContains (s sub : String) : Bool :=
  charsHaveSub sub.data s.data

/-! ### Concrete data for witnesses -/

/-- The §8 end-to-end example inputs. -/
def example_params_8 : FormInputs :=
  { genre := "Fantasy", tone := "Exciting", setting := "Magical Kingdom"
    character_name := "", character_type := "Animal"
    character_traits := ["Brave", "Curious"], themes := ["Friendship"]
    length := "Short (5 minutes)", additional_details := "" }

/-- A world in which every external call succeeds. -/
def wGood : World :=
  { chatCompletion := fun _ _ => .ok "story!"
    ttsCreate := fun _ _ => .ok ()
    tmpName := "/tmp/story.mp3" }

/-- A world in which the chat-completion call always raises. -/
def wBad : World :=
  { chatCompletion := fun _ _ => .error "boom"
    ttsCreate := fun _ _ => .ok ()
    tmpName := "/tmp/story.mp3" }

/-- A world in which text generation succeeds and speech synthesis raises. -/
def wFailTTS : World :=
  { chatCompletion := fun _ _ => .ok "story!"
    ttsCreate := fun _ _ => .error "boom"
    tmpName := "/tmp/story.mp3" }

/-- The §8 inputs with the themes selection cleared. -/
def f_empty_themes : FormInputs :=
  { example_params_8 with themes := [] }

/-- A generator-screen state that already holds a story. -/
def s_with_story : SessionState :=
  { api_key_submitted := true, client := some "sk-key"
    current_story := some "Once upon a time" }

/-! ### Helper lemmas -/

lemma render_generator_iff (s : SessionState) :
    render s = Screen.generator ↔ s.api_key_submitted = true := by
  cases h : s.api_key_submitted <;> simp [render, h]

lemma generate_content_ok {w : World} {c : String} {p : StoryParams} {t : String}
    (h : w.chatCompletion c (mkPrompt p) = Except.ok t) :
    generate_content w c p = (some t, [Event.textCall (mkPrompt p)]) := by
  simp [generate_content, h]

lemma generate_content_err {w : World} {c : String} {p : StoryParams} {e : String}
    (h : w.chatCompletion c (mkPrompt p) = Except.error e) :
    generate_content w c p
      = (none, [Event.textCall (mkPrompt p),
                Event.errorMsg ("Error generating story: " ++ e)]) := by
  simp [generate_content, h]

lemma generate_audio_ok {w : World} {fs : List String} {c t : String}
    (h : w.ttsCreate c t = Except.ok ()) :
    generate_audio w fs c t
      = (some w.tmpName, w.tmpName :: fs, [Event.audioCall t]) := by
  simp [generate_audio, h]

lemma generate_audio_err {w : World} {fs : List String} {c t e : String}
    (h : w.ttsCreate c t = Except.error e) :
    generate_audio w fs c t
      = (none, w.tmpName :: fs,
         [Event.audioCall t, Event.errorMsg ("Error generating audio: " ++ e)]) := by
  simp [generate_audio, h]

/-- The fully successful pipeline, written out event by event. -/
lemma click_success {w : World} {s : SessionState} {fs : List String}
    {f : FormInputs} {t : String}
    (h5 : formComplete f = true)
    (h1 : w.chatCompletion (s.client.getD "") (mkPrompt (build_story_params f))
            = Except.ok t)
    (h2 : t ≠ "")
    (h3 : w.ttsCreate (s.client.getD "") t = Except.ok ())
    (h4 : w.tmpName ≠ "") :
    generate_story_click w s fs f =
      ⟨{ s with current_story := some t }, fs,
       [Event.textCall (mkPrompt (build_story_params f)),
        Event.successMsg "Story generated successfully!",
        Event.displayText t, Event.audioCall t,
        Event.successMsg "Audio generated successfully!",
        Event.audioPlayer w.tmpName, Event.downloadAudio w.tmpName,
        Event.downloadText t, Event.unlink w.tmpName]⟩ := by
  simp [generate_story_click, h5, generate_content_ok h1, pyTruthy, h2,
        generate_audio_ok h3, h4, List.erase_cons_head]

/-- Text generation succeeds, speech synthesis raises: the temp file is
created and never unlinked, and no player or download button appears. -/
lemma click_ttsFail {w : World} {s : SessionState} {fs : List String}
    {f : FormInputs} {t e : String}
    (h5 : formComplete f = true)
    (h1 : w.chatCompletion (s.client.getD "") (mkPrompt (build_story_params f))
            = Except.ok t)
    (h2 : t ≠ "")
    (h3 : w.ttsCreate (s.client.getD "") t = Except.error e) :
    generate_story_click w s fs f =
      ⟨{ s with current_story := some t }, w.tmpName :: fs,
       [Event.textCall (mkPrompt (build_story_params f)),
        Event.successMsg "Story generated successfully!",
        Event.displayText t, Event.audioCall t,
        Event.errorMsg ("Error generating audio: " ++ e)]⟩ := by
  simp [generate_story_click, h5, generate_content_ok h1, pyTruthy, h2,
        generate_audio_err h3]

/-! ### Claims -/

/-- Claim C1: the Generator screen is displayed exactly when
`api_key_submitted` is true; the flag starts false, so the session starts
on the Credential Gate, and the correspondence is preserved by every
sequence of user actions. -/
theorem claim_C1 :
    (init_session_state.api_key_submitted = false
      ∧ render init_session_state = Screen.gate)
    ∧ ∀ (w : World) (acts : List Action),
        (render (runApp w acts) = Screen.generator
          ↔ (runApp w acts).api_key_submitted = true)
        ∧ ((runApp w acts).api_key_submitted = false
            → render (runApp w acts) = Screen.gate) := by
  refine ⟨⟨rfl, rfl⟩, fun w acts => ⟨render_generator_iff _, fun h => ?_⟩⟩
  simp [render, h]

/-- Witness for C1 at a concrete action sequence. -/
theorem claim_C1_witness :
    render (runApp wGood [Action.change_key]) = Screen.gate :=
  (claim_C1.2 wGood [Action.change_key]).2 (by decide)

/-- Claim C3: a submission with any required field missing or empty is
rejected with a warning, and neither the state nor the filesystem changes
and no external call is made. -/
theorem claim_C3 (w : World) (s : SessionState) (fs : List String)
    (f : FormInputs)
    (h : f.genre = "" ∨ f.tone = "" ∨ f.setting = "" ∨ f.character_type = ""
          ∨ f.character_traits = [] ∨ f.themes = []) :
    generate_story_click w s fs f
        = ⟨s, fs, [Event.warnMsg "Please fill in all required fields"]⟩
    ∧ (∀ p, Event.textCall p ∉ (generate_story_click w s fs f).events)
    ∧ (∀ t, Event.audioCall t ∉ (generate_story_click w s fs f).events) := by
  have hfc : formComplete f = false := by
    unfold formComplete
    rcases h with h | h | h | h | h | h <;> simp [h]
  refine ⟨?_, ?_, ?_⟩ <;> simp [generate_story_click, hfc]

/-- Witness for C3: the §8 inputs with the themes selection cleared. -/
theorem claim_C3_witness :
    generate_story_click wGood init_session_state [] f_empty_themes
      = ⟨init_session_state, [],
         [Event.warnMsg "Please fill in all required fields"]⟩ :=
  (claim_C3 wGood init_session_state [] f_empty_themes (by decide)).1

/-- Claim C4: when the text-generation call raises, the session state —
in particular `current_story` — is unchanged and no speech-synthesis call
is made. -/
theorem claim_C4 (w : World) (s : SessionState) (fs : List String)
    (f : FormInputs) (e : String)
    (h : w.chatCompletion (s.client.getD "") (mkPrompt (build_story_params f))
          = Except.error e) :
    (generate_story_click w s fs f).state = s
    ∧ (generate_story_click w s fs f).state.current_story = s.current_story
    ∧ (∀ t, Event.audioCall t ∉ (generate_story_click w s fs f).events) := by
  refine ⟨?_, ?_, ?_⟩ <;>
    cases hfc : formComplete f <;>
      simp [generate_story_click, hfc, generate_content_err h, pyTruthy]

/-- Witness for C4 in a world whose chat call always raises. -/
theorem claim_C4_witness :
    (generate_story_click wBad init_session_state [] example_params_8).state
      = init_session_state :=
  (claim_C4 wBad init_session_state [] example_params_8 "boom" rfl).1

/-- Claim C5: `validate_api_key` is true iff its single chat-completion
request completes without raising; a non-empty validating key stores the
client, sets the flag and moves the UI to the Generator; an empty or
non-validating key leaves the state unchanged and shows an error. -/
theorem claim_C5 (w : World) (s : SessionState) (key : String) :
    (validate_api_key w key = true
      ↔ ∃ t, w.chatCompletion key "test" = Except.ok t)
    ∧ (key ≠ "" → validate_api_key w key = true →
        (api_key_form w s key).1
            = { s with client := some key, api_key_submitted := true }
        ∧ render (api_key_form w s key).1 = Screen.generator)
    ∧ ((key = "" ∨ validate_api_key w key = false) →
        (api_key_form w s key).1 = s
        ∧ ∃ m, Event.errorMsg m ∈ (api_key_form w s key).2) := by
  refine ⟨?_, ?_, ?_⟩
  · cases h : w.chatCompletion key "test" <;> simp [validate_api_key, h]
  · intro hk hv
    simp [api_key_form, hk, hv, render]
  · rintro (hk | hv)
    · exact ⟨by simp [api_key_form, hk], "Please enter an API key.",
             by simp [api_key_form, hk]⟩
    · by_cases hk : key = ""
      · exact ⟨by simp [api_key_form, hk], "Please enter an API key.",
               by simp [api_key_form, hk]⟩
      · exact ⟨by simp [api_key_form, hk, hv],
               "Invalid API key. Please check and try again.",
               by simp [api_key_form, hk, hv]⟩

/-- Witness for C5: a validating key is accepted, a raising one is not. -/
theorem claim_C5_witness :
    ((api_key_form wGood init_session_state "sk-key").1
        = { init_session_state with
            client := some "sk-key", api_key_submitted := true })
    ∧ (api_key_form wBad init_session_state "sk-key").1 = init_session_state :=
  ⟨((claim_C5 wGood init_session_state "sk-key").2.1 (by decide) rfl).1,
   ((claim_C5 wBad init_session_state "sk-key").2.2 (Or.inr rfl)).1⟩

/-- Claim C6: a blank character name becomes `"the protagonist"` and a
non-blank one is used verbatim, and the prompt embeds every parameter
field verbatim, joining traits and themes with `", "`. -/
theorem claim_C6 :
    (∀ f : FormInputs,
      (build_story_params f).character_name
        = if f.character_name = "" then "the protagonist"
          else f.character_name)
    ∧ ∀ p : StoryParams, ∃ a b c d e g h i j k : String,
        mkPrompt p
          = a ++ p.genre ++ b ++ p.tone ++ c ++ p.setting
            ++ d ++ p.character_type ++ e
            ++ String.intercalate ", " p.character_traits
            ++ g ++ p.character_name
            ++ h ++ String.intercalate ", " p.themes
            ++ i ++ p.length ++ j
            ++ (if p.additional_details = "" then "None"
                else p.additional_details)
            ++ k :=
  ⟨fun _ => rfl, fun _ => ⟨_, _, _, _, _, _, _, _, _, _, rfl⟩⟩

/-- Claim C7: on a fully successful run each external service is called
exactly once, the text call strictly before the audio call; and the §8
example inputs produce a prompt containing `"the protagonist"`. -/
theorem claim_C7 (w : World) (s : SessionState) (fs : List String)
    (f : FormInputs) (t : String)
    (h5 : formComplete f = true)
    (h1 : w.chatCompletion (s.client.getD "") (mkPrompt (build_story_params f))
            = Except.ok t)
    (h2 : t ≠ "")
    (h3 : w.ttsCreate (s.client.getD "") t = Except.ok ())
    (h4 : w.tmpName ≠ "") :
    ((generate_story_click w s fs f).events.countP isTextCallEv = 1
      ∧ (generate_story_click w s fs f).events.countP isAudioCallEv = 1
      ∧ ∃ l1 l2 l3 : List Event, ∃ p u : String,
          (generate_story_click w s fs f).events
            = l1 ++ Event.textCall p :: (l2 ++ Event.audioCall u :: l3))
    ∧ strContains (mkPrompt (build_story_params example_params_8))
        "the protagonist" = true := by
  have he := @click_success w s fs f t h5 h1 h2 h3 h4
  refine ⟨⟨?_, ?_, ?_⟩, by decide⟩
  · rw [he]
    simp [List.countP_cons, isTextCallEv]
  · rw [he]
    simp [List.countP_cons, isAudioCallEv]
  · exact ⟨[], [Event.successMsg "Story generated successfully!",
               Event.displayText t],
           [Event.successMsg "Audio generated successfully!",
            Event.audioPlayer w.tmpName, Event.downloadAudio w.tmpName,
            Event.downloadText t, Event.unlink w.tmpName],
           mkPrompt (build_story_params f), t, by rw [he]; rfl⟩

/-- Witness for C7 on the §8 inputs in the all-success world. -/
theorem claim_C7_witness :
    (generate_story_click wGood init_session_state []
        example_params_8).events.countP isTextCallEv = 1 :=
  (claim_C7 wGood init_session_state [] example_params_8 "story!" (by decide)
      rfl (by decide) rfl (by decide)).1.1

/-- Claim C8: on a fully successful run the temp file is unlinked right
after the two download buttons are registered, so the filesystem ends as
it began and the temp file no longer exists. -/
theorem claim_C8 (w : World) (s : SessionState) (fs : List String)
    (f : FormInputs) (t : String)
    (h5 : formComplete f = true)
    (h1 : w.chatCompletion (s.client.getD "") (mkPrompt (build_story_params f))
            = Except.ok t)
    (h2 : t ≠ "")
    (h3 : w.ttsCreate (s.client.getD "") t = Except.ok ())
    (h4 : w.tmpName ≠ "")
    (h6 : w.tmpName ∉ fs) :
    (generate_story_click w s fs f).fs = fs
    ∧ w.tmpName ∉ (generate_story_click w s fs f).fs
    ∧ ∃ pre : List Event,
        (generate_story_click w s fs f).events
          = pre ++ [Event.downloadAudio w.tmpName, Event.downloadText t,
                    Event.unlink w.tmpName] := by
  have he := @click_success w s fs f t h5 h1 h2 h3 h4
  refine ⟨by rw [he], by rw [he]; exact h6,
          ⟨[Event.textCall (mkPrompt (build_story_params f)),
            Event.successMsg "Story generated successfully!",
            Event.displayText t, Event.audioCall t,
            Event.successMsg "Audio generated successfully!",
            Event.audioPlayer w.tmpName], by rw [he]; rfl⟩⟩

/-- Witness for C8 on the §8 inputs in the all-success world. -/
theorem claim_C8_witness :
    (generate_story_click wGood init_session_state [] example_params_8).fs
      = [] :=
  (claim_C8 wGood init_session_state [] example_params_8 "story!" (by decide)
      rfl (by decide) rfl (by decide) (by decide)).1

/-- Claim C10: when the speech call raises, `generate_audio` returns
`none` but the file it created with `delete=False` stays on disk; the
whole run ends with the temp file still present and no unlink. -/
theorem claim_C10 (w : World) (s : SessionState) (fs : List String)
    (f : FormInputs) (t e : String)
    (h5 : formComplete f = true)
    (h1 : w.chatCompletion (s.client.getD "") (mkPrompt (build_story_params f))
            = Except.ok t)
    (h2 : t ≠ "")
    (h3 : w.ttsCreate (s.client.getD "") t = Except.error e) :
    (generate_audio w fs (s.client.getD "") t).1 = none
    ∧ w.tmpName ∈ (generate_audio w fs (s.client.getD "") t).2.1
    ∧ w.tmpName ∈ (generate_story_click w s fs f).fs
    ∧ ∀ q, Event.unlink q ∉ (generate_story_click w s fs f).events := by
  have he := @click_ttsFail w s fs f t e h5 h1 h2 h3
  refine ⟨by rw [generate_audio_err h3], by rw [generate_audio_err h3]; simp,
          by rw [he]; simp, fun q => by rw [he]; simp⟩

/-- Witness for C10 in the world whose speech call raises. -/
theorem claim_C10_witness :
    (generate_audio wFailTTS [] "" "story!").1 = none :=
  (claim_C10 wFailTTS init_session_state [] example_params_8 "story!" "boom"
      (by decide) rfl (by decide) rfl).1

/-- Claim C2 (amended): when text generation succeeds and speech synthesis
fails, the story text is displayed and stored in session state, and no
audio player or audio download appears — but no text download is offered
either, because all download buttons live in the audio-success branch. -/
theorem claim_C2 (w : World) (s : SessionState) (fs : List String)
    (f : FormInputs) (t e : String)
    (h5 : formComplete f = true)
    (h1 : w.chatCompletion (s.client.getD "") (mkPrompt (build_story_params f))
            = Except.ok t)
    (h2 : t ≠ "")
    (h3 : w.ttsCreate (s.client.getD "") t = Except.error e) :
    Event.displayText t ∈ (generate_story_click w s fs f).events
    ∧ (generate_story_click w s fs f).state.current_story = some t
    ∧ (generate_story_click w s fs f).events.any isDownloadTextEv = false
    ∧ (generate_story_click w s fs f).events.any isDownloadAudioEv = false
    ∧ (generate_story_click w s fs f).events.any isAudioPlayerEv = false := by
  have he := @click_ttsFail w s fs f t e h5 h1 h2 h3
  refine ⟨by rw [he]; simp, by rw [he],
          by rw [he]; simp [isDownloadTextEv],
          by rw [he]; simp [isDownloadAudioEv],
          by rw [he]; simp [isAudioPlayerEv]⟩

/-- Counterexample to C2 as stated: with the §8 inputs, text generation
succeeding and synthesis failing, the text is displayed but no
text-download action is registered. -/
theorem claim_C2_counterexample :
    wFailTTS.chatCompletion "" (mkPrompt (build_story_params example_params_8))
        = Except.ok "story!"
    ∧ wFailTTS.ttsCreate "" "story!" = Except.error "boom"
    ∧ Event.displayText "story!"
        ∈ (generate_story_click wFailTTS init_session_state []
            example_params_8).events
    ∧ (generate_story_click wFailTTS init_session_state []
        example_params_8).events.any isDownloadTextEv = false :=
  ⟨rfl, rfl, by decide, by decide⟩

/-- Witness for the amended C2. -/
theorem claim_C2_witness :
    (generate_story_click wFailTTS init_session_state []
        example_params_8).state.current_story = some "story!" :=
  (claim_C2 wFailTTS init_session_state [] example_params_8 "story!" "boom"
      (by decide) rfl (by decide) rfl).2.1

/-- Claim C9 (amended): the sidebar `Change API Key` action clears
`api_key_submitted` and the client handle and returns to the Gate, but it
leaves `current_story` untouched rather than resetting it to its initial
`none`. -/
theorem claim_C9 (w : World) (s : SessionState) (fs : List String)
    (h : s.api_key_submitted = true) :
    (main w s fs Action.change_key).state
        = { api_key_submitted := false, client := none,
            current_story := s.current_story }
    ∧ render (main w s fs Action.change_key).state = Screen.gate
    ∧ (main w s fs Action.change_key).fs = fs := by
  refine ⟨?_, ?_, ?_⟩ <;> simp [main, h, story_generator_interface, render]

/-- Counterexample to C9 as stated: from a state holding a story, the
action does not restore the initial session state — the story text
survives. -/
theorem claim_C9_counterexample :
    s_with_story.api_key_submitted = true
    ∧ (main wGood s_with_story [] Action.change_key).state
        ≠ init_session_state
    ∧ (main wGood s_with_story [] Action.change_key).state.current_story
        = some "Once upon a time" := by
  decide

/-- Witness for the amended C9. -/
theorem claim_C9_witness :
    (main wGood s_with_story [] Action.change_key).state
      = { api_key_submitted := false, client := none,
          current_story := some "Once upon a time" } :=
  (claim_C9 wGood s_with_story [] rfl).1

end BedtimeStory
